import Mathlib

/-!
Verification of the MCQ-Genie backend core (generation, answer-hiding,
submission, scoring) against its natural-language specification.

The Python source is shallowly embedded: pydantic models become structures,
pydantic field validators become explicit checked constructors returning
`Except`, `datetime.utcnow()` becomes an explicit `now : Nat` parameter,
MongoDB collections become lists of session records, and raised exceptions
become `Except.error` with the exception message.
-/

namespace MCQGenie

/-- The `DifficultyLevel` enum from `app/models/schemas.py`. -/
inductive DifficultyLevel
  | easy
  | medium
  | hard
deriving DecidableEq, Repr

/-- The `TestStatus` enum from `app/models/schemas.py`. -/
inductive TestStatus
  | in_progress
  | completed
  | expired
deriving DecidableEq, Repr

/-- The `MCQOption` model: `{option_id, text}`. -/
structure MCQOption where
  option_id : String
  text : String
deriving DecidableEq, Repr

/-- The `MCQuestion` model fields from `app/models/schemas.py`. -/
structure MCQuestion where
  question_id : String
  question_text : String
  options : List MCQOption
  correct_answer : String
  explanation : Option String
  difficulty : DifficultyLevel
deriving DecidableEq, Repr

/-- The pydantic validator `validate_correct_answer`: the value must be one of
`A`, `B`, `C`, `D`. -/
def validCorrectAnswer (v : String) : Bool :=
  v == "A" || v == "B" || v == "C" || v == "D"

/-- Constructing an `MCQuestion` through pydantic runs field validation:
`options` must have exactly 4 items (`min_items=4, max_items=4`) and
`correct_answer` must pass `validate_correct_answer`; otherwise the
constructor raises a `ValidationError`. -/
def mkMCQuestion (question_id question_text : String) (options : List MCQOption)
    (correct_answer : String) (explanation : Option String)
    (difficulty : DifficultyLevel) : Except String MCQuestion :=
  if options.length ≠ 4 then
    .error "options must have exactly 4 items"
  else if ¬ validCorrectAnswer correct_answer then
    .error "correct_answer must be A, B, C, or D"
  else
    .ok ⟨question_id, question_text, options, correct_answer, explanation, difficulty⟩

/-- The `AnswerSubmission` model: `{question_id, selected_answer}`. -/
structure AnswerSubmission where
  question_id : String
  selected_answer : String
deriving DecidableEq, Repr

/-- The pydantic validator `validate_selected_answer` on `AnswerSubmission`. -/
def validSelectedAnswer (a : AnswerSubmission) : Bool :=
  validCorrectAnswer a.selected_answer

/-- The `TestSubmission` model: `{test_id, answers}`. -/
structure TestSubmission where
  test_id : String
  answers : List AnswerSubmission
deriving DecidableEq, Repr

/-- The `QuestionResult` model. -/
structure QuestionResult where
  question_id : String
  question_text : String
  selected_answer : String
  correct_answer : String
  is_correct : Bool
  explanation : Option String
deriving DecidableEq, Repr

/-- The `TestResult` model.  `score_percentage` is a Python float computed by
`round(..., 2)`; it is modelled as an exact rational.  `completed_at` is the
wall-clock instant `datetime.utcnow()` read during evaluation, modelled as a
`Nat` timestamp. -/
structure TestResult where
  test_id : String
  topic : String
  total_questions : Nat
  correct_answers : Nat
  wrong_answers : Nat
  score_percentage : ℚ
  results : List QuestionResult
  completed_at : Nat
deriving DecidableEq, Repr

/-- The `TestSessionDB` model (the persisted session document). -/
structure TestSessionDB where
  test_id : String
  topic : String
  questions : List MCQuestion
  difficulty : DifficultyLevel
  status : TestStatus
  time_limit_minutes : Nat
  created_at : Nat
  submitted_at : Option Nat
  answers : Option (List AnswerSubmission)
  result : Option TestResult
deriving DecidableEq, Repr

/-! ## Scoring helpers (`app/utils/helpers.py`) -/

/-- Python `round` to the nearest integer with ties to even (banker's
rounding), on exact rationals. -/
def pyRoundInt (x : ℚ) : ℤ :=
  let f : ℤ := ⌊x⌋
  let r : ℚ := x - f
  if r < 1/2 then f
  else if 1/2 < r then f + 1
  else if f % 2 = 0 then f else f + 1

/-- Python `round(x, 2)`: round to 2 decimal places, ties to even. -/
def pyRound2 (x : ℚ) : ℚ :=
  (pyRoundInt (x * 100) : ℚ) / 100

/-- The function `calculate_score_percentage` from `app/utils/helpers.py`:
`0.0` when `total == 0`, else `round((correct / total) * 100, 2)`. -/
def calculate_score_percentage (correct total : Nat) : ℚ :=
  if total = 0 then 0
  else pyRound2 (((correct : ℚ) / (total : ℚ)) * 100)

/-! ## Scoring engine (`TestController._evaluate_test`) -/

/-- The lookup `answer_map.get(qid, "")` where
`answer_map = {ans.question_id: ans.selected_answer for ans in answers}`:
in a Python dict comprehension the last occurrence of a key wins, so the
lookup returns the last matching submission's selection, or `""`. -/
def answerLookup (answers : List AnswerSubmission) (qid : String) : String :=
  match answers.reverse.find? (fun a => a.question_id = qid) with
  | some a => a.selected_answer
  | none => ""

/-- One iteration of the evaluation loop in `_evaluate_test`: build the
`QuestionResult` for one question.  `selected if selected else "Not answered"`
tests Python truthiness of the string, i.e. emptiness. -/
def evaluateQuestion (answers : List AnswerSubmission) (q : MCQuestion) :
    QuestionResult :=
  let selected := answerLookup answers q.question_id
  { question_id := q.question_id
    question_text := q.question_text
    selected_answer := if selected = "" then "Not answered" else selected
    correct_answer := q.correct_answer
    is_correct := selected == q.correct_answer
    explanation := q.explanation }

/-- Python `s.split("_")[0]`: the prefix of `s` before the first underscore
(the whole string when there is none). -/
def splitHeadUnderscore (s : String) : String :=
  String.mk (s.data.takeWhile (fun c => c ≠ '_'))

/-- The `TestController._evaluate_test`: evaluate every question in order, count
correct answers, compute the score, and rebuild a `test_id` from the first
question's id (`questions[0].question_id.split("_")[0]`, or `"unknown"` for an
empty list).  `now` is the value of `datetime.utcnow()` at this run. -/
def evaluateTest (questions : List MCQuestion) (answers : List AnswerSubmission)
    (topic : String) (now : Nat) : TestResult :=
  let results := questions.map (evaluateQuestion answers)
  let correct_count := results.countP (fun r => r.is_correct)
  let total := questions.length
  { test_id :=
      match questions with
      | [] => "unknown"
      | q :: _ => splitHeadUnderscore q.question_id
    topic := topic
    total_questions := total
    correct_answers := correct_count
    wrong_answers := total - correct_count
    score_percentage := calculate_score_percentage correct_count total
    results := results
    completed_at := now }

/-! ## Answer-hiding projection (`TestController._prepare_public_questions`) -/

/-- One iteration of `_prepare_public_questions`: build the public copy of a
question through the pydantic `MCQuestion` constructor, with
`correct_answer=""` and `explanation=None`. -/
def preparePublicQuestion (q : MCQuestion) : Except String MCQuestion :=
  mkMCQuestion q.question_id q.question_text q.options "" none q.difficulty

/-- The loop `_prepare_public_questions`: project every question in order; the
first `ValidationError` aborts the whole call (the Python loop raises). -/
def preparePublicQuestions : List MCQuestion → Except String (List MCQuestion)
  | [] => .ok []
  | q :: rest => do
    let pq ← preparePublicQuestion q
    let prest ← preparePublicQuestions rest
    .ok (pq :: prest)

/-! ## Session store (`app/services/db_service.py`) -/

/-- The read `get_test_session`: `find_one({"test_id": test_id})` — the first document
whose `test_id` matches, or none. -/
def get_test_session (store : List TestSessionDB) (tid : String) :
    Option TestSessionDB :=
  store.find? (fun s => s.test_id = tid)

/-- The `$set` document applied by `submit_test_answers`: store the answers
and the result, flip `status` to `completed`, stamp `submitted_at`. -/
def applySubmission (answers : List AnswerSubmission) (result : TestResult)
    (now : Nat) (s : TestSessionDB) : TestSessionDB :=
  { s with
    answers := some answers
    result := some result
    status := TestStatus.completed
    submitted_at := some now }

/-- The write `submit_test_answers`: `update_one({"test_id": test_id}, {"$set": ...})` —
update the first matching document unconditionally (no status guard in the
filter). -/
def submit_test_answers (store : List TestSessionDB) (tid : String)
    (answers : List AnswerSubmission) (result : TestResult) (now : Nat) :
    List TestSessionDB :=
  match store with
  | [] => []
  | s :: rest =>
    if s.test_id = tid then applySubmission answers result now s :: rest
    else s :: submit_test_answers rest tid answers result now

/-! ## Submission (`TestController.submit_test`) -/

/-- The read-and-check phase of `submit_test` (lines 95-104): fetch the
session and raise on not-found / already-completed / expired. -/
def submitCheck (store : List TestSessionDB) (tid : String) :
    Except String TestSessionDB :=
  match get_test_session store tid with
  | none => .error ("Test not found: " ++ tid)
  | some session =>
    if session.status = TestStatus.completed then .error "Test already submitted"
    else if session.status = TestStatus.expired then .error "Test has expired"
    else .ok session

/-- The `TestController.submit_test`: check, evaluate, then write.  An exception
leaves the store untouched (the write is never reached); success returns the
evaluated result and the updated store. -/
def submit_test (store : List TestSessionDB) (submission : TestSubmission)
    (now : Nat) : Except String TestResult × List TestSessionDB :=
  match submitCheck store submission.test_id with
  | .error e => (.error e, store)
  | .ok session =>
    let result := evaluateTest session.questions submission.answers
      session.topic now
    (.ok result,
     submit_test_answers store submission.test_id submission.answers result now)

/-! ## LLM response parsing (`LLMService._parse_mcq_response`) -/

/-- A parsed draft element as `generate_mcqs` consumes it: each field is
present or absent in the JSON object (`mcq["question"]`,
`mcq["options"]["A"]`..`["D"]`, `mcq["correct_answer"]`,
`mcq.get("explanation", "")`). -/
structure MCQDraft where
  question : Option String
  optionA : Option String
  optionB : Option String
  optionC : Option String
  optionD : Option String
  correct_answer : Option String
  explanation : Option String
deriving DecidableEq, Repr

/-- Outcome of `json.loads` on the cleaned text, as far as the parser
inspects it: a decode failure (with the decoder's message), a value that is
not a list, or a list of draft objects. -/
inductive LoadResult
  | decodeError (msg : String)
  | nonArray
  | array (drafts : List MCQDraft)
deriving DecidableEq, Repr

/-- Python `str.strip()`: remove whitespace from both ends.  A Python string
is a sequence of code points, so the model works on `List Char`. -/
def pyStrip (s : String) : String :=
  String.mk
    (((s.data.dropWhile Char.isWhitespace).reverse.dropWhile
        Char.isWhitespace).reverse)

/-- Python `s.startswith(p)` on code points. -/
def strStartsWith (s p : String) : Bool :=
  p.data.isPrefixOf s.data

/-- Python `s.endswith(p)` on code points. -/
def strEndsWith (s p : String) : Bool :=
  p.data.isSuffixOf s.data

/-- Python `s[n:]` on code points. -/
def strDrop (s : String) (n : Nat) : String :=
  String.mk (s.data.drop n)

/-- Python `s[:-n]` on code points (for `n ≤ len(s)`). -/
def strDropRight (s : String) (n : Nat) : String :=
  String.mk (s.data.take (s.data.length - n))

/-- Python `s[:n]` on code points. -/
def strTake (s : String) (n : Nat) : String :=
  String.mk (s.data.take n)

/-- The code-fence stripping at the top of `_parse_mcq_response`: strip, drop
a leading ```` ```json ```` (7 chars) or ```` ``` ```` (3 chars), drop a
trailing ```` ``` ````, strip again. -/
def stripFences (s : String) : String :=
  let s := pyStrip s
  let s := if strStartsWith s "```json" then strDrop s 7 else s
  let s := if strStartsWith s "```" then strDrop s 3 else s
  let s := if strEndsWith s "```" then strDropRight s 3 else s
  pyStrip s

/-- The parser `_parse_mcq_response`, parameterized by the behaviour of `json.loads` on
the cleaned text.  Returns the parse outcome together with the list of lines
printed to stdout.  A `JSONDecodeError` is caught and re-raised as
`Exception("Failed to parse MCQ response as JSON")` after printing the
decoder message and a 200-character snippet; a non-list value raises
`ValueError("Response is not a list")`, which the `except` clause does not
catch, so nothing is printed on that path. -/
def parse_mcq_response (loads : String → LoadResult) (response : String) :
    Except String (List MCQDraft) × List String :=
  let cleaned := stripFences response
  match loads cleaned with
  | .array drafts => (.ok drafts, [])
  | .nonArray => (.error "Response is not a list", [])
  | .decodeError msg =>
    (.error "Failed to parse MCQ response as JSON",
     ["JSON Parse Error: " ++ msg,
      "Response was: " ++ strTake cleaned 200 ++ "..."])

/-! ## MCQ generation (`LLMService.generate_mcqs`) -/

/-- One iteration of the conversion loop in `generate_mcqs` (`idx` 0-based):
a missing dict key raises `KeyError`; the `MCQuestion` constructor validates
`correct_answer`; `explanation` defaults to `""` via `mcq.get`. -/
def buildQuestion (difficulty : DifficultyLevel) (idx : Nat) (mcq : MCQDraft) :
    Except String MCQuestion := do
  let qtext ← (mcq.question).elim (.error "KeyError: question") .ok
  let a ← (mcq.optionA).elim (.error "KeyError: A") .ok
  let b ← (mcq.optionB).elim (.error "KeyError: B") .ok
  let c ← (mcq.optionC).elim (.error "KeyError: C") .ok
  let d ← (mcq.optionD).elim (.error "KeyError: D") .ok
  let ca ← (mcq.correct_answer).elim (.error "KeyError: correct_answer") .ok
  mkMCQuestion ("q_" ++ toString (idx + 1)) qtext
    [⟨"A", a⟩, ⟨"B", b⟩, ⟨"C", c⟩, ⟨"D", d⟩]
    ca (some ((mcq.explanation).getD "")) difficulty

/-- The conversion stage of `generate_mcqs`: for each parsed draft, in array
order, synthesize an `MCQuestion` with `question_id = "q_" + (idx+1)` and the
requested difficulty.  Any failure aborts the whole generation (the
surrounding `except` re-raises).  Note the requested question count is used
only to build the prompt; it is never checked against the number of drafts. -/
def buildQuestions (difficulty : DifficultyLevel) :
    Nat → List MCQDraft → Except String (List MCQuestion)
  | _, [] => .ok []
  | idx, mcq :: rest => do
    let q ← buildQuestion difficulty idx mcq
    let qs ← buildQuestions difficulty (idx + 1) rest
    .ok (q :: qs)

/-- The conversion stage of `generate_mcqs` started at index 0 (the
`enumerate` loop). -/
def generate_mcqs (drafts : List MCQDraft) (difficulty : DifficultyLevel) :
    Except String (List MCQuestion) :=
  buildQuestions difficulty 0 drafts

/-- The `TestController.generate_test` clamps the requested count:
`min(request.num_questions, settings.max_mcq_count)` with
`max_mcq_count = 50`. -/
def clampCount (num_questions : Nat) : Nat :=
  min num_questions 50

/-! ## Shared sample data -/

/-- A valid stored question as the generator produces it. -/
def qSample : MCQuestion :=
  { question_id := "q_1"
    question_text := "What is 2+2?"
    options := [⟨"A", "4"⟩, ⟨"B", "3"⟩, ⟨"C", "5"⟩, ⟨"D", "6"⟩]
    correct_answer := "A"
    explanation := some "Basic arithmetic."
    difficulty := DifficultyLevel.easy }

/-! ## Helper lemmas -/

/-- Filtering with a predicate that keeps every element the search predicate
accepts does not change `find?`. -/
theorem find?_filter_of_imp {α : Type} (p q : α → Bool)
    (l : List α) (h : ∀ a, q a = true → p a = true) :
    (l.filter p).find? q = l.find? q := by
  induction l with
  | nil => rfl
  | cons a l ih =>
    cases hpa : p a with
    | false =>
      have hqa : q a = false := by
        cases hqa2 : q a with
        | false => rfl
        | true => exact absurd (h a hqa2) (by simp [hpa])
      simp [List.filter_cons, hpa, hqa, ih]
    | true =>
      cases hqa : q a with
      | false => simp [List.filter_cons, hpa, hqa, ih]
      | true => simp [List.filter_cons, hpa, hqa]

/-- Dropping answers that no question in scope refers to does not change the
answer lookup for the ids that are in scope. -/
theorem answerLookup_filter (answers : List AnswerSubmission)
    (p : AnswerSubmission → Bool) (qid : String)
    (hp : ∀ a, a.question_id = qid → p a = true) :
    answerLookup (answers.filter p) qid = answerLookup answers qid := by
  unfold answerLookup
  rw [← List.filter_reverse,
    find?_filter_of_imp p (fun a => a.question_id = qid) answers.reverse
      (fun a ha => hp a (by simpa using ha))]

/-- Per-question evaluation only inspects answers whose `question_id` matches
the question. -/
theorem evaluateQuestion_filter (answers : List AnswerSubmission)
    (p : AnswerSubmission → Bool) (q : MCQuestion)
    (hp : ∀ a, a.question_id = q.question_id → p a = true) :
    evaluateQuestion (answers.filter p) q = evaluateQuestion answers q := by
  unfold evaluateQuestion
  rw [answerLookup_filter answers p q.question_id hp]

/-! ## Theorems -/

/-- C3: a submitted answer whose `question_id` does not occur among the
questions has no effect on the evaluation result (filtering such answers out
changes nothing), and a question with no matching submitted answer yields a
`QuestionResult` with `selected_answer = "Not answered"` and
`is_correct = false`. -/
theorem evaluate_strays_and_unanswered :
    ∀ (questions : List MCQuestion) (answers : List AnswerSubmission)
      (topic : String) (now : Nat),
      (evaluateTest questions
        (answers.filter
          (fun a => questions.any (fun q => q.question_id = a.question_id)))
        topic now
        = evaluateTest questions answers topic now)
      ∧ ((evaluateTest questions answers topic now).results
          = questions.map (evaluateQuestion answers))
      ∧ ∀ q ∈ questions,
          (∀ a ∈ answers, a.question_id ≠ q.question_id) →
          validCorrectAnswer q.correct_answer = true →
          evaluateQuestion answers q
            = { question_id := q.question_id
                question_text := q.question_text
                selected_answer := "Not answered"
                correct_answer := q.correct_answer
                is_correct := false
                explanation := q.explanation } := by
  intro questions answers topic now
  refine ⟨?_, rfl, ?_⟩
  · have hres : questions.map (evaluateQuestion (answers.filter
        (fun a => questions.any (fun q => q.question_id = a.question_id))))
        = questions.map (evaluateQuestion answers) := by
      apply List.map_congr_left
      intro q hq
      apply evaluateQuestion_filter
      intro a ha
      simp only [List.any_eq_true, decide_eq_true_eq]
      exact ⟨q, hq, ha.symm⟩
    simp only [evaluateTest]
    rw [hres]
  · intro q hq hno hval
    have hfind : answers.reverse.find?
        (fun a => a.question_id = q.question_id) = none := by
      rw [List.find?_eq_none]
      intro a ha
      simpa using hno a (List.mem_reverse.mp ha)
    have hlook : answerLookup answers q.question_id = "" := by
      unfold answerLookup
      rw [hfind]
    have hcases : ((q.correct_answer = "A" ∨ q.correct_answer = "B")
        ∨ q.correct_answer = "C") ∨ q.correct_answer = "D" := by
      simpa [validCorrectAnswer, Bool.or_eq_true] using hval
    have hne : (("" : String) == q.correct_answer) = false := by
      rcases hcases with ((h | h) | h) | h <;> simp [h]
    unfold evaluateQuestion
    rw [hlook]
    simp [hne]

/-- Witness for C3: a lone stray answer leaves the sample question
unanswered. -/
theorem evaluate_strays_and_unanswered_witness :
    evaluateQuestion [⟨"zzz", "B"⟩] qSample
      = { question_id := qSample.question_id
          question_text := qSample.question_text
          selected_answer := "Not answered"
          correct_answer := qSample.correct_answer
          is_correct := false
          explanation := qSample.explanation } :=
  (evaluate_strays_and_unanswered [qSample] [⟨"zzz", "B"⟩] "arith" 0).2.2
    qSample (by simp) (by decide) (by decide)

/-- C1 (code bug): for every valid stored question the public projection
raises: `_prepare_public_questions` rebuilds the question through the
pydantic `MCQuestion` constructor with `correct_answer=""`, and the model's
own validator `validate_correct_answer` rejects `""`, so the projection
never succeeds. -/
theorem prepare_public_always_raises :
    ∀ (q : MCQuestion) (rest : List MCQuestion),
      q.options.length = 4 →
      preparePublicQuestion q
          = .error "correct_answer must be A, B, C, or D"
      ∧ preparePublicQuestions (q :: rest)
          = .error "correct_answer must be A, B, C, or D" := by
  intro q rest hlen
  have h1 : preparePublicQuestion q
      = .error "correct_answer must be A, B, C, or D" := by
    simp [preparePublicQuestion, mkMCQuestion, hlen, validCorrectAnswer]
  refine ⟨h1, ?_⟩
  simp only [preparePublicQuestions]
  rw [h1]
  rfl

/-- Witness for C1 at the sample question. -/
theorem prepare_public_always_raises_witness :
    preparePublicQuestions [qSample]
      = .error "correct_answer must be A, B, C, or D" :=
  (prepare_public_always_raises qSample [] (by decide)).2

/-- C4: for `correct ≤ total`, the score percentage is
`round(100 * correct / total, 2)` when `total > 0` and `0.0` when
`total = 0`; in particular 0 of 5 gives 0.0, 3 of 5 gives 60.0, and 2 of 3
gives 66.67. -/
theorem calculate_score_spec :
    (∀ correct total : Nat, correct ≤ total →
      (total ≠ 0 →
        calculate_score_percentage correct total
          = pyRound2 ((100 * (correct : ℚ)) / (total : ℚ)))
      ∧ (total = 0 → calculate_score_percentage correct total = 0))
    ∧ calculate_score_percentage 0 5 = 0
    ∧ calculate_score_percentage 3 5 = 60
    ∧ calculate_score_percentage 2 3 = 6667 / 100 := by
  refine ⟨fun correct total _ => ⟨fun ht => ?_, fun ht => by
    simp [calculate_score_percentage, ht]⟩,
    by norm_num [calculate_score_percentage, pyRound2, pyRoundInt],
    by norm_num [calculate_score_percentage, pyRound2, pyRoundInt],
    by norm_num [calculate_score_percentage, pyRound2, pyRoundInt]⟩
  have harg : ((correct : ℚ) / (total : ℚ)) * 100
      = (100 * (correct : ℚ)) / (total : ℚ) := by ring
  unfold calculate_score_percentage
  rw [if_neg ht, harg]

/-- Witness for C4 at `correct = 3`, `total = 5`. -/
theorem calculate_score_spec_witness :
    calculate_score_percentage 3 5 = pyRound2 ((100 * (3 : ℚ)) / (5 : ℚ)) :=
  (calculate_score_spec.1 3 5 (by decide)).1 (by decide)

/-- C5 counterexample: two runs of `_evaluate_test` on identical
`(questions, answers)` inputs but at different wall-clock instants produce
`TestResult` values that are not identical in every field (`completed_at`
differs), refuting bit-identical determinism as stated. -/
theorem evaluate_two_runs_differ :
    evaluateTest [] [] "photosynthesis" 0
      ≠ evaluateTest [] [] "photosynthesis" 1 := by
  intro h
  exact absurd (congrArg TestResult.completed_at h) (by decide)

/-- C5 amended: `_evaluate_test` is deterministic in every field except
`completed_at`: identical `(questions, answers, topic)` inputs yield results
identical in `test_id`, `topic`, the three counters, the score, and the
`results` sequence, while `completed_at` records the clock reading of the
run. -/
theorem evaluate_deterministic_modulo_timestamp :
    ∀ (questions : List MCQuestion) (answers : List AnswerSubmission)
      (topic : String) (now₁ now₂ : Nat),
      (evaluateTest questions answers topic now₁).test_id
        = (evaluateTest questions answers topic now₂).test_id
      ∧ (evaluateTest questions answers topic now₁).topic
        = (evaluateTest questions answers topic now₂).topic
      ∧ (evaluateTest questions answers topic now₁).total_questions
        = (evaluateTest questions answers topic now₂).total_questions
      ∧ (evaluateTest questions answers topic now₁).correct_answers
        = (evaluateTest questions answers topic now₂).correct_answers
      ∧ (evaluateTest questions answers topic now₁).wrong_answers
        = (evaluateTest questions answers topic now₂).wrong_answers
      ∧ (evaluateTest questions answers topic now₁).score_percentage
        = (evaluateTest questions answers topic now₂).score_percentage
      ∧ (evaluateTest questions answers topic now₁).results
        = (evaluateTest questions answers topic now₂).results
      ∧ (evaluateTest questions answers topic now₁).completed_at = now₁ :=
  fun _ _ _ _ _ => ⟨rfl, rfl, rfl, rfl, rfl, rfl, rfl, rfl⟩

/-- C9: the `test_id` recorded in an evaluation result is the prefix of the
first question's id before the first underscore (so the constant `q` for the
generator's `q_<ordinal>` scheme), and the string `unknown` for an empty
question list. -/
theorem evaluate_test_id_spec :
    (∀ (answers : List AnswerSubmission) (topic : String) (now : Nat),
       (evaluateTest [] answers topic now).test_id = "unknown")
    ∧ (∀ (q : MCQuestion) (qs : List MCQuestion)
         (answers : List AnswerSubmission) (topic : String) (now : Nat),
       (evaluateTest (q :: qs) answers topic now).test_id
         = splitHeadUnderscore q.question_id)
    ∧ (∀ tail : String, splitHeadUnderscore ("q_" ++ tail) = "q")
    ∧ (∀ tail uuid : String,
        splitHeadUnderscore ("q_" ++ tail) ≠ "test_" ++ uuid) := by
  have hq : ∀ tail : String, splitHeadUnderscore ("q_" ++ tail) = "q" := by
    intro tail
    have h : ("q_" ++ tail).data = 'q' :: '_' :: tail.data := rfl
    show String.mk (("q_" ++ tail).data.takeWhile (fun c => c ≠ '_')) = "q"
    rw [h]
    rfl
  refine ⟨fun _ _ _ => rfl, fun _ _ _ _ _ => rfl, hq, fun tail uuid h => ?_⟩
  rw [hq tail] at h
  have hlen := congrArg (fun s => s.data.length) h
  simp only [] at hlen
  have happ : ("test_" ++ uuid).data = "test_".data ++ uuid.data := rfl
  rw [happ] at hlen
  simp at hlen

/-- Witness for C9 on a one-question list carrying a generator-style id. -/
theorem evaluate_test_id_spec_witness :
    splitHeadUnderscore ("q_" ++ "17") = "q" :=
  evaluate_test_id_spec.2.2.1 "17"

/-- C10: structural invariants of every evaluation result: the counters and
the `results` length agree with the question list, correct and wrong counts
partition the total, and each `QuestionResult` copies `question_id`,
`question_text`, `correct_answer`, and `explanation` from the question at
the same index. -/
theorem evaluate_result_invariants :
    ∀ (questions : List MCQuestion) (answers : List AnswerSubmission)
      (topic : String) (now : Nat),
      (evaluateTest questions answers topic now).total_questions
        = questions.length
      ∧ (evaluateTest questions answers topic now).results.length
        = questions.length
      ∧ (evaluateTest questions answers topic now).correct_answers
          + (evaluateTest questions answers topic now).wrong_answers
          = questions.length
      ∧ (∀ q : MCQuestion,
          (evaluateQuestion answers q).question_id = q.question_id
          ∧ (evaluateQuestion answers q).question_text = q.question_text
          ∧ (evaluateQuestion answers q).correct_answer = q.correct_answer
          ∧ (evaluateQuestion answers q).explanation = q.explanation)
      ∧ ∀ (i : Nat) (h : i < questions.length),
          (evaluateTest questions answers topic now).results[i]?
            = some (evaluateQuestion answers (questions.get ⟨i, h⟩)) := by
  intro questions answers topic now
  refine ⟨rfl, by simp [evaluateTest], ?_, fun q => ⟨rfl, rfl, rfl, rfl⟩, ?_⟩
  · have hle : (questions.map (evaluateQuestion answers)).countP
        (fun r => r.is_correct) ≤ questions.length := by
      calc (questions.map (evaluateQuestion answers)).countP
            (fun r => r.is_correct)
          ≤ (questions.map (evaluateQuestion answers)).length :=
            List.countP_le_length _
        _ = questions.length := List.length_map _ _
    show (questions.map (evaluateQuestion answers)).countP
          (fun r => r.is_correct)
        + (questions.length
            - (questions.map (evaluateQuestion answers)).countP
                (fun r => r.is_correct))
        = questions.length
    omega
  · intro i h
    show (questions.map (evaluateQuestion answers))[i]? = _
    rw [List.getElem?_map]
    simp [List.getElem?_eq_getElem h, List.get_eq_getElem]

/-- Witness for C10 at the sample question: the first result row is the
evaluation of the first question. -/
theorem evaluate_result_invariants_witness :
    (evaluateTest [qSample] [] "arith" 0).results[0]?
      = some (evaluateQuestion [] qSample) :=
  (evaluate_result_invariants [qSample] [] "arith" 0).2.2.2.2 0 (by decide)

/-- A session in progress, as created by `create_test_session`. -/
def sessionSample : TestSessionDB :=
  { test_id := "test_1"
    topic := "arith"
    questions := [qSample]
    difficulty := DifficultyLevel.easy
    status := TestStatus.in_progress
    time_limit_minutes := 30
    created_at := 0
    submitted_at := none
    answers := none
    result := none }

/-- A submission against the sample session. -/
def submissionSample : TestSubmission :=
  { test_id := "test_1", answers := [⟨"q_1", "A"⟩] }

/-- Updating the first session matching an id and then reading that id back
yields the updated session. -/
theorem get_test_session_submit (store : List TestSessionDB) (tid : String)
    (answers : List AnswerSubmission) (result : TestResult) (now : Nat) :
    get_test_session (submit_test_answers store tid answers result now) tid
      = (get_test_session store tid).map (applySubmission answers result now) := by
  induction store with
  | nil => rfl
  | cons s rest ih =>
    unfold submit_test_answers
    by_cases h : s.test_id = tid
    · rw [if_pos h]
      unfold get_test_session
      rw [List.find?_cons_of_pos _ (by simp [applySubmission, h]),
        List.find?_cons_of_pos _ (by simp [h])]
      rfl
    · rw [if_neg h]
      unfold get_test_session
      rw [List.find?_cons_of_neg _ (by simp [h]),
        List.find?_cons_of_neg _ (by simp [h])]
      exact ih

/-- C6: submit on a completed or expired session raises and leaves the store
untouched; submit on an in-progress session succeeds, returns the evaluated
result, and stores the answers, the result, status `completed`, and the
submission time. -/
theorem submit_state_machine :
    ∀ (store : List TestSessionDB) (sub : TestSubmission) (now : Nat)
      (session : TestSessionDB),
      get_test_session store sub.test_id = some session →
      (session.status = TestStatus.completed →
        submit_test store sub now = (.error "Test already submitted", store))
      ∧ (session.status = TestStatus.expired →
        submit_test store sub now = (.error "Test has expired", store))
      ∧ (session.status = TestStatus.in_progress →
        submit_test store sub now
          = (.ok (evaluateTest session.questions sub.answers session.topic now),
             submit_test_answers store sub.test_id sub.answers
               (evaluateTest session.questions sub.answers session.topic now)
               now)
        ∧ get_test_session (submit_test store sub now).2 sub.test_id
            = some { session with
                     status := TestStatus.completed
                     answers := some sub.answers
                     result := some (evaluateTest session.questions
                       sub.answers session.topic now)
                     submitted_at := some now }) := by
  intro store sub now session hget
  refine ⟨fun hst => ?_, fun hst => ?_, fun hst => ?_⟩
  · unfold submit_test submitCheck
    rw [hget]
    simp [hst]
  · unfold submit_test submitCheck
    rw [hget]
    simp [hst]
  · have hcheck : submitCheck store sub.test_id = .ok session := by
      unfold submitCheck
      rw [hget]
      simp [hst]
    have hrun : submit_test store sub now
        = (.ok (evaluateTest session.questions sub.answers session.topic now),
           submit_test_answers store sub.test_id sub.answers
             (evaluateTest session.questions sub.answers session.topic now)
             now) := by
      unfold submit_test
      rw [hcheck]
    refine ⟨hrun, ?_⟩
    rw [hrun]
    show get_test_session (submit_test_answers store sub.test_id sub.answers
      (evaluateTest session.questions sub.answers session.topic now) now)
      sub.test_id = _
    rw [get_test_session_submit, hget]
    rfl

/-- Witness for C6: submitting the sample session succeeds and the stored
session is completed with the result attached. -/
theorem submit_state_machine_witness :
    submit_test [sessionSample] submissionSample 7
      = (.ok (evaluateTest sessionSample.questions submissionSample.answers
                sessionSample.topic 7),
         submit_test_answers [sessionSample] submissionSample.test_id
           submissionSample.answers
           (evaluateTest sessionSample.questions submissionSample.answers
             sessionSample.topic 7) 7)
    ∧ get_test_session (submit_test [sessionSample] submissionSample 7).2
        submissionSample.test_id
        = some { sessionSample with
                 status := TestStatus.completed
                 answers := some submissionSample.answers
                 result := some (evaluateTest sessionSample.questions
                   submissionSample.answers sessionSample.topic 7)
                 submitted_at := some 7 } :=
  (submit_state_machine [sessionSample] submissionSample 7 sessionSample
    rfl).2.2 rfl

/-- First racing submission's answers. -/
def answersFirst : List AnswerSubmission := [⟨"q_1", "A"⟩]

/-- Second racing submission's answers. -/
def answersSecond : List AnswerSubmission := [⟨"q_1", "B"⟩]

/-- The result the first racing submission computes and stores. -/
def resultFirst : TestResult :=
  evaluateTest sessionSample.questions answersFirst sessionSample.topic 10

/-- The result the second racing submission computes and stores. -/
def resultSecond : TestResult :=
  evaluateTest sessionSample.questions answersSecond sessionSample.topic 11

/-- C7 (code bug): `submit_test` is a read-then-write with no conditional
update, so under the interleaving where both submissions run the
read-and-check phase (`submitCheck`) against the initial store before either
write, both checks observe `in_progress` and pass, both submissions run to
completion returning `ok`, and the second write overwrites the first: the
stored result ends up being the second submission's, which differs from the
first's.  The claim that exactly one succeeds and the stored result is the
first submission's fails. -/
theorem double_submit_race :
    submit_test [sessionSample] ⟨"test_1", answersFirst⟩ 10
      = (.ok resultFirst,
         submit_test_answers [sessionSample] "test_1" answersFirst
           resultFirst 10)
    ∧ submitCheck [sessionSample] "test_1" = .ok sessionSample
    ∧ (get_test_session
        (submit_test_answers
          (submit_test_answers [sessionSample] "test_1" answersFirst
            resultFirst 10)
          "test_1" answersSecond resultSecond 11) "test_1").map
        (fun s => s.result)
      = some (some resultSecond)
    ∧ resultSecond ≠ resultFirst := by
  refine ⟨rfl, rfl, rfl, ?_⟩
  intro h
  have hfirst : resultFirst.correct_answers = 1 := rfl
  have hsecond : resultSecond.correct_answers = 0 := rfl
  have h2 := congrArg TestResult.correct_answers h
  rw [hfirst, hsecond] at h2
  exact absurd h2 (by decide)

/-- Bind on `Except` propagates success. -/
theorem except_bind_ok {ε α β : Type} (a : α) (f : α → Except ε β) :
    (Except.ok a >>= f) = f a := rfl

/-- Bind on `Except` propagates failure. -/
theorem except_bind_err {ε α β : Type} (e : ε) (f : α → Except ε β) :
    ((Except.error e : Except ε α) >>= f) = .error e := rfl

/-- A successfully built question carries the synthesized id, the four
options `A`-`D` in order, a validated `correct_answer`, and the requested
difficulty. -/
theorem buildQuestion_ok (difficulty : DifficultyLevel) (idx : Nat)
    (mcq : MCQDraft) (q : MCQuestion)
    (h : buildQuestion difficulty idx mcq = .ok q) :
    q.question_id = "q_" ++ toString (idx + 1)
    ∧ q.options.map (fun o => o.option_id) = ["A", "B", "C", "D"]
    ∧ q.options.length = 4
    ∧ validCorrectAnswer q.correct_answer = true
    ∧ q.difficulty = difficulty := by
  rcases mcq with ⟨qt, oa, ob, oc, od, ca, ex⟩
  cases qt <;> cases oa <;> cases ob <;> cases oc <;> cases od <;> cases ca <;>
    simp only [buildQuestion, Option.elim, except_bind_ok, except_bind_err] at h
  all_goals try exact absurd h (by simp)
  rename_i qt a b c d v
  rw [mkMCQuestion] at h
  simp only [List.length_cons, List.length_nil] at h
  rw [if_neg (by decide)] at h
  by_cases hv : validCorrectAnswer v = true
  · rw [if_neg (by simp [hv])] at h
    cases h
    exact ⟨rfl, rfl, rfl, hv, rfl⟩
  · rw [if_pos (by simpa using hv)] at h
    exact absurd h (by simp)

/-- The conversion loop, started at any index, returns one question per
draft, with ids continuing the index sequence and each question validated. -/
theorem buildQuestions_ok (difficulty : DifficultyLevel) :
    ∀ (drafts : List MCQDraft) (idx : Nat) (qs : List MCQuestion),
      buildQuestions difficulty idx drafts = .ok qs →
      qs.length = drafts.length
      ∧ ∀ (i : Nat) (h : i < qs.length),
          (qs.get ⟨i, h⟩).question_id = "q_" ++ toString (idx + i + 1)
          ∧ (qs.get ⟨i, h⟩).options.map (fun o => o.option_id)
              = ["A", "B", "C", "D"]
          ∧ (qs.get ⟨i, h⟩).options.length = 4
          ∧ validCorrectAnswer (qs.get ⟨i, h⟩).correct_answer = true
          ∧ (qs.get ⟨i, h⟩).difficulty = difficulty := by
  intro drafts
  induction drafts with
  | nil =>
    intro idx qs h
    simp only [buildQuestions] at h
    cases h
    exact ⟨rfl, fun i hi => absurd hi (by simp)⟩
  | cons d rest ih =>
    intro idx qs h
    simp only [buildQuestions] at h
    cases hq : buildQuestion difficulty idx d with
    | error e => rw [hq, except_bind_err] at h; exact absurd h (by simp)
    | ok q =>
      rw [hq, except_bind_ok] at h
      cases hrest : buildQuestions difficulty (idx + 1) rest with
      | error e => rw [hrest, except_bind_err] at h; exact absurd h (by simp)
      | ok qrest =>
        rw [hrest, except_bind_ok] at h
        cases h
        have hhead := buildQuestion_ok difficulty idx d q hq
        have htail := ih (idx + 1) qrest hrest
        refine ⟨by simp [htail.1], fun i hi => ?_⟩
        cases i with
        | zero =>
          simpa using hhead
        | succ j =>
          have hj : j < qrest.length := by
            simpa using Nat.lt_of_succ_lt_succ (by simpa using hi)
          have ht := htail.2 j hj
          have hidx : idx + 1 + j + 1 = idx + (j + 1) + 1 := by omega
          rw [hidx] at ht
          simpa using ht

/-- A draft element as the example in the generation prompt would parse. -/
def draftSample : MCQDraft :=
  { question := some "What is the capital of France?"
    optionA := some "London"
    optionB := some "Paris"
    optionC := some "Berlin"
    optionD := some "Madrid"
    correct_answer := some "B"
    explanation := some "Paris is the capital of France." }

/-- The question list `generate_mcqs` builds from the single sample draft. -/
def generatedSample : List MCQuestion :=
  [{ question_id := "q_1"
     question_text := "What is the capital of France?"
     options := [⟨"A", "London"⟩, ⟨"B", "Paris"⟩, ⟨"C", "Berlin"⟩,
       ⟨"D", "Madrid"⟩]
     correct_answer := "B"
     explanation := some "Paris is the capital of France."
     difficulty := DifficultyLevel.medium }]

/-- C2 counterexample: for the valid requested count 2 (not clamped), an LLM
response that parses to a single draft still generates successfully, and the
successful generation returns 1 question, not the requested 2: the count is
never enforced against the parsed drafts. -/
theorem generate_count_not_enforced :
    clampCount 2 = 2
    ∧ generate_mcqs [draftSample] DifficultyLevel.medium = .ok generatedSample
    ∧ generatedSample.length = 1
    ∧ (1 : Nat) ≠ 2 := by
  exact ⟨rfl, rfl, rfl, by decide⟩

/-- C2 amended: a successful generation returns one question per parsed
draft, in parse order — as many questions as the LLM returned drafts, a
number never checked against the requested count — and each question has id
`"q_" + (1-based position)`, exactly 4 options with ids `A`, `B`, `C`, `D`,
a `correct_answer` in that set, and the requested difficulty. -/
theorem generate_mcqs_spec :
    ∀ (drafts : List MCQDraft) (difficulty : DifficultyLevel)
      (qs : List MCQuestion),
      generate_mcqs drafts difficulty = .ok qs →
      qs.length = drafts.length
      ∧ ∀ (i : Nat) (h : i < qs.length),
          (qs.get ⟨i, h⟩).question_id = "q_" ++ toString (i + 1)
          ∧ (qs.get ⟨i, h⟩).options.map (fun o => o.option_id)
              = ["A", "B", "C", "D"]
          ∧ (qs.get ⟨i, h⟩).options.length = 4
          ∧ validCorrectAnswer (qs.get ⟨i, h⟩).correct_answer = true
          ∧ (qs.get ⟨i, h⟩).difficulty = difficulty := by
  intro drafts difficulty qs h
  have h2 := buildQuestions_ok difficulty drafts 0 qs h
  refine ⟨h2.1, fun i hi => ?_⟩
  have h3 := h2.2 i hi
  simpa using h3

/-- Witness for C2's amended theorem on the sample draft. -/
theorem generate_mcqs_spec_witness :
    generatedSample.length = ([draftSample] : List MCQDraft).length
    ∧ (generatedSample.get ⟨0, by decide⟩).question_id = "q_1"
    ∧ validCorrectAnswer
        (generatedSample.get ⟨0, by decide⟩).correct_answer = true :=
  ⟨(generate_mcqs_spec [draftSample] DifficultyLevel.medium generatedSample
      rfl).1,
   ((generate_mcqs_spec [draftSample] DifficultyLevel.medium generatedSample
      rfl).2 0 (by decide)).1,
   ((generate_mcqs_spec [draftSample] DifficultyLevel.medium generatedSample
      rfl).2 0 (by decide)).2.2.2.1⟩

/-- Substring test on code points: does `hay` contain `needle`? -/
def strInfixOf (needle hay : String) : Bool :=
  hay.data.tails.any (fun t => needle.data.isPrefixOf t)

/-- A `json.loads` behaviour that rejects every input, as on non-JSON text. -/
def loadsFailing : String → LoadResult :=
  fun _ => .decodeError "Expecting value: line 1 column 1 (char 0)"

/-- C8 counterexample: on undecodable text the parser raises
`Exception("Failed to parse MCQ response as JSON")` — a fixed message that
does not contain any snippet of the offending text; the truncated snippet is
only printed to stdout, not carried in the exception payload. -/
theorem parse_error_lacks_snippet :
    parse_mcq_response loadsFailing "certainly malformed output 123"
      = (.error "Failed to parse MCQ response as JSON",
         ["JSON Parse Error: Expecting value: line 1 column 1 (char 0)",
          "Response was: certainly malformed output 123..."])
    ∧ strInfixOf (strTake (stripFences "certainly malformed output 123") 200)
        "Failed to parse MCQ response as JSON" = false := by
  exact ⟨rfl, by decide⟩

/-- C8 amended: when `json.loads` fails on the cleaned text, the parser
raises an exception with the fixed message
`Failed to parse MCQ response as JSON` and prints (to the log, not into the
exception) the decoder message and a snippet of the cleaned text truncated
to at most 200 characters; when the decoded value is not a list it raises
`ValueError("Response is not a list")` with no snippet anywhere.  `loads` is
consulted exactly once per call: the parser never retries. -/
theorem parse_failure_spec :
    ∀ (loads : String → LoadResult) (response msg : String),
      (loads (stripFences response) = .decodeError msg →
        parse_mcq_response loads response
          = (.error "Failed to parse MCQ response as JSON",
             ["JSON Parse Error: " ++ msg,
              "Response was: " ++ strTake (stripFences response) 200 ++ "..."])
        ∧ (strTake (stripFences response) 200).length ≤ 200)
      ∧ (loads (stripFences response) = .nonArray →
        parse_mcq_response loads response
          = (.error "Response is not a list", []))
      ∧ ∀ drafts, loads (stripFences response) = .array drafts →
        parse_mcq_response loads response = (.ok drafts, []) := by
  intro loads response msg
  have hunfold : parse_mcq_response loads response
      = match loads (stripFences response) with
        | .array drafts => (.ok drafts, [])
        | .nonArray => (.error "Response is not a list", [])
        | .decodeError m =>
          (.error "Failed to parse MCQ response as JSON",
           ["JSON Parse Error: " ++ m,
            "Response was: " ++ strTake (stripFences response) 200
              ++ "..."]) := rfl
  refine ⟨fun h => ⟨?_, ?_⟩, fun h => ?_, fun drafts h => ?_⟩
  · rw [hunfold, h]
  · show ((stripFences response).data.take 200).length ≤ 200
    exact List.length_take_le _ _
  · rw [hunfold, h]
  · rw [hunfold, h]

/-- Witness for C8's amended theorem on the failing loader. -/
theorem parse_failure_spec_witness :
    parse_mcq_response loadsFailing "not json at all"
      = (.error "Failed to parse MCQ response as JSON",
         ["JSON Parse Error: "
            ++ "Expecting value: line 1 column 1 (char 0)",
          "Response was: "
            ++ strTake (stripFences "not json at all") 200 ++ "..."])
    ∧ (strTake (stripFences "not json at all") 200).length ≤ 200 :=
  (parse_failure_spec loadsFailing "not json at all"
    "Expecting value: line 1 column 1 (char 0)").1 rfl

end MCQGenie
